import Mathlib

/-!
# Verification of the spreadsheet product-converter scripts

Shallow embedding of the row-conversion logic of the repository
(`conversor-final-corrigido-v2.js`, `conversor-simples.js`, and the
`conversor-final-corrigido` variant shipped as `src/unnamed/part_001`).

Modelling conventions:
* A JS cell value (string or number, as produced by `sheet_to_json` with
  `raw:false, defval:''`) is `Valor`; JS strings are `List Char`.
* A row object is an association list `Linha` in insertion order; JS objects
  cannot hold duplicate keys, and `jsGet` returns the first binding.
* JS numbers are modelled as `ℚ` (no floats, no NaN value; the scripts'
  `isNaN` guards correspond to the `Option` result of string parsing).
* `Number(string)` is modelled by `numeroJS` for optionally signed decimal
  literals (the only shapes these scripts feed it); exponent/hex forms of JS
  are outside the modelled fragment.
* Unicode NFD decomposition (`normalize('NFD')`) is modelled by `nfdChar`
  for the precomposed Latin letters occurring in the scripts' header
  synonyms; all other characters decompose to themselves.
* Console logging is external I/O and is not modelled, except that the
  guard condition of the v2 "default description" warning is exposed as
  `avisoDescricaoPadrao`.
-/

/-- JS string literal as a character list. -/
def txt (s : String) : List Char := s.data

/-- A spreadsheet cell value as the scripts see it: a string or a number. -/
inductive Valor where
  | str : List Char → Valor
  | num : ℚ → Valor
deriving DecidableEq

/-- A raw row: association list from header to cell value, in insertion order. -/
abbrev Linha := List (List Char × Valor)

/-- Property read `obj[k]`: value of the first binding of `k`, if any. -/
def jsGet (row : Linha) (k : List Char) : Option Valor :=
  (row.find? (fun p => decide (p.1 = k))).map Prod.snd

/-- Models `obj.hasOwnProperty(k)`. -/
def chaveExiste (row : Linha) (k : List Char) : Bool :=
  (jsGet row k).isSome

/-- JS whitespace characters relevant to `trim` in this embedding. -/
def ehEspacoJS (c : Char) : Bool :=
  c == ' ' || c == '\t' || c == '\n' || c == '\r'

/-- Models `String.prototype.trim`: drop whitespace at both ends. -/
def trimJS (s : List Char) : List Char :=
  ((s.dropWhile ehEspacoJS).reverse.dropWhile ehEspacoJS).reverse

/-- Combining acute accent U+0301. -/
def acentoAgudo : Char := Char.ofNat 769

/-- Combining grave accent U+0300. -/
def acentoGrave : Char := Char.ofNat 768

/-- Combining circumflex U+0302. -/
def acentoCircunflexo : Char := Char.ofNat 770

/-- Combining tilde U+0303. -/
def acentoTil : Char := Char.ofNat 771

/-- Combining diaeresis U+0308. -/
def acentoTrema : Char := Char.ofNat 776

/-- Combining cedilla U+0327. -/
def acentoCedilha : Char := Char.ofNat 807

/-- Models `normalize('NFD')` on one character, for the precomposed Latin letters
appearing in the scripts' header-synonym tables; other characters are
unchanged. -/
def nfdChar (c : Char) : List Char :=
  if c = 'á' then ['a', acentoAgudo]
  else if c = 'à' then ['a', acentoGrave]
  else if c = 'â' then ['a', acentoCircunflexo]
  else if c = 'ã' then ['a', acentoTil]
  else if c = 'ä' then ['a', acentoTrema]
  else if c = 'ç' then ['c', acentoCedilha]
  else if c = 'é' then ['e', acentoAgudo]
  else if c = 'ê' then ['e', acentoCircunflexo]
  else if c = 'í' then ['i', acentoAgudo]
  else if c = 'ó' then ['o', acentoAgudo]
  else if c = 'ô' then ['o', acentoCircunflexo]
  else if c = 'õ' then ['o', acentoTil]
  else if c = 'ú' then ['u', acentoAgudo]
  else if c = 'ü' then ['u', acentoTrema]
  else if c = 'Á' then ['A', acentoAgudo]
  else if c = 'À' then ['A', acentoGrave]
  else if c = 'Â' then ['A', acentoCircunflexo]
  else if c = 'Ã' then ['A', acentoTil]
  else if c = 'Ç' then ['C', acentoCedilha]
  else if c = 'É' then ['E', acentoAgudo]
  else if c = 'Ê' then ['E', acentoCircunflexo]
  else if c = 'Í' then ['I', acentoAgudo]
  else if c = 'Ó' then ['O', acentoAgudo]
  else if c = 'Ô' then ['O', acentoCircunflexo]
  else if c = 'Õ' then ['O', acentoTil]
  else if c = 'Ú' then ['U', acentoAgudo]
  else [c]

/-- A combining diacritic in the range U+0300–U+036F (the range the scripts
remove with `replace(/[̀-ͯ]/g, '')`). -/
def ehCombinante (c : Char) : Bool :=
  decide (768 ≤ c.toNat) && decide (c.toNat ≤ 879)

/-- Models `normalizar` of the v2 and `part_001` scripts: NFD decomposition,
removal of combining diacritics, lower-casing, trim.  `Char.toLower` is
ASCII-only, which agrees with JS after diacritics are stripped on the
modelled character set. -/
def normalizar (s : List Char) : List Char :=
  trimJS (((s.flatMap nfdChar).filter (fun c => !ehCombinante c)).map Char.toLower)

/-- The `mapaColunasEncontradas` object built by `diagnosticarColunas`:
one optional resolved header per canonical field. -/
structure Mapa where
  catalogo : Option (List Char)
  codigo : Option (List Char)
  descricao : Option (List Char)
  unidade : Option (List Char)
  ncm : Option (List Char)
  precoVarejo : Option (List Char)
  precoAtacado : Option (List Char)
  precoPromocao : Option (List Char)
  estoque : Option (List Char)
  precoCompra : Option (List Char)
  codigoOriginal : Option (List Char)
  fornecedor : Option (List Char)
  endereco : Option (List Char)
  endereco2 : Option (List Char)
  garantia : Option (List Char)
  pendencia : Option (List Char)
  linha : Option (List Char)
  grupo : Option (List Char)
deriving DecidableEq

/-- A column map with every field unresolved. -/
def mapaVazio : Mapa :=
  ⟨none, none, none, none, none, none, none, none, none,
   none, none, none, none, none, none, none, none, none⟩

/-- Models `mapa.campo || [defaults]`, combined with `obterValorSeguro`'s wrapping
of a single string into a one-element array. -/
def candidatos (o : Option (List Char)) (d : List (List Char)) : List (List Char) :=
  match o with
  | some s => [s]
  | none => d

/-- Models `encontrarColuna` (identical in `conversor-final-corrigido-v2.js` and
`part_001`): first an exact `hasOwnProperty` match over the candidate names
in order, then the first object key (in insertion order) whose normalization
equals the normalization of some candidate. -/
def encontrarColuna (row : Linha) (nomes : List (List Char)) : Option (List Char) :=
  match nomes.find? (fun nome => chaveExiste row nome) with
  | some nome => some nome
  | none =>
    let normalizados := nomes.map normalizar
    (row.map Prod.fst).find? (fun chave => decide (normalizar chave ∈ normalizados))

/-- Models `obterValorSeguro` of v2/`part_001`: resolve the column, then return the
value unless it is missing or a blank string. -/
def obterValorSeguro (row : Linha) (nomes : List (List Char)) (padrao : Valor) : Valor :=
  match encontrarColuna row nomes with
  | some nome =>
    match jsGet row nome with
    | none => padrao
    | some v =>
      match v with
      | Valor.str s => if (trimJS s).isEmpty then padrao else v
      | Valor.num _ => v
  | none => padrao

/-- Models `estaVazio`: missing values are handled before this is applied; a string
is empty when it trims to nothing, a number never is. -/
def estaVazio (v : Valor) : Bool :=
  match v with
  | Valor.str s => (trimJS s).isEmpty
  | Valor.num _ => false

/-- JS truthiness of a cell value (`''` and `0` are falsy). -/
def verdadeiroJS (v : Valor) : Bool :=
  match v with
  | Valor.str s => !s.isEmpty
  | Valor.num q => !(decide (q = 0))

/-- Digit list of a natural number (`String(n)` for naturals). -/
def textoNat (n : Nat) : List Char := (toString n).data

/-- Models `String(i)` for integers. -/
def textoInt (i : ℤ) : List Char :=
  if i < 0 then '-' :: textoNat i.natAbs else textoNat i.natAbs

/-- Decimal expansion of `resto / den`, fuel-bounded (the values interpolated
by these scripts have short terminating expansions). -/
def digitosFrac : Nat → Nat → Nat → List Char
  | 0, _, _ => []
  | _ + 1, 0, _ => []
  | combustivel + 1, resto, den =>
    Char.ofNat (48 + (resto * 10) / den) :: digitosFrac combustivel ((resto * 10) % den) den

/-- Models `String(q)` for the modelled numbers: integer part, then a fractional
expansion when the value is not an integer. -/
def textoRat (q : ℚ) : List Char :=
  if q.den = 1 then textoInt q.num
  else
    (if q < 0 then ['-'] else []) ++
      textoNat (q.num.natAbs / q.den) ++ '.' :: digitosFrac 30 (q.num.natAbs % q.den) q.den

/-- JS string interpolation / `String(v)` of a cell value. -/
def paraTexto (v : Valor) : List Char :=
  match v with
  | Valor.str s => s
  | Valor.num q => textoRat q

/-- Models `codigo.split(' ')`: split on every single space character. -/
def splitSpace : List Char → List (List Char)
  | [] => [[]]
  | c :: t =>
    if c = ' ' then [] :: splitSpace t
    else
      match splitSpace t with
      | [] => [[c]]
      | h :: r => (c :: h) :: r

/-- Models `partes.join(' ')`. -/
def joinSpace : List (List Char) → List Char
  | [] => []
  | [x] => x
  | x :: y :: r => x ++ ' ' :: joinSpace (y :: r)

/-- The substring after the first space character (empty when there is none). -/
def aposPrimeiroEspaco : List Char → List Char
  | [] => []
  | c :: t => if c = ' ' then t else aposPrimeiroEspaco t

/-- The substring before the first space character. -/
def antesPrimeiroEspaco (s : List Char) : List Char :=
  s.takeWhile (fun c => !(c == ' '))

/-- Base-10 value of a digit list. -/
def digitosValor (l : List Char) : ℕ :=
  l.foldl (fun acc c => 10 * acc + (c.toNat - 48)) 0

/-- Unsigned decimal-literal parsing: digits, optionally followed by `.` and
digits, with at least one digit overall. -/
def numeroDecimal (s : List Char) : Option ℚ :=
  let inteiro := s.takeWhile Char.isDigit
  let resto := s.drop inteiro.length
  if resto.isEmpty then
    if inteiro.isEmpty then none else some (digitosValor inteiro)
  else if resto.headD ' ' = '.' then
    let frac := resto.tail
    if frac.all Char.isDigit && !(inteiro.isEmpty && frac.isEmpty) then
      some ((digitosValor inteiro : ℚ) + (digitosValor frac : ℚ) / 10 ^ frac.length)
    else none
  else none

/-- Optional sign in front of a decimal literal. -/
def numeroComSinal (s : List Char) : Option ℚ :=
  match s with
  | [] => numeroDecimal []
  | c :: r =>
    if c = '+' then numeroDecimal r
    else if c = '-' then (numeroDecimal r).map (fun q => -q)
    else numeroDecimal (c :: r)

/-- Models `Number(string)` on the decimal fragment these scripts produce: trimmed
whitespace-only input is `0`, otherwise an optionally signed decimal literal,
and `none` stands for `NaN`. -/
def numeroJS (s : List Char) : Option ℚ :=
  let t := trimJS s
  if t.isEmpty then some 0 else numeroComSinal t

/-- Models `replace(',', '.')`: only the first comma is replaced. -/
def virgulaParaPonto : List Char → List Char
  | [] => []
  | c :: t => if c = ',' then '.' :: t else c :: virgulaParaPonto t

/-- Models `parseNumero` of v2/`part_001`: strip every dot, replace the first comma
by a dot, then `Number`; empty/missing input and parse failures yield the
configured default. -/
def parseNumeroV2 (valor : Option Valor) (padrao : Option ℚ) : Option ℚ :=
  match valor with
  | none => padrao
  | some v =>
    if v = Valor.str [] then padrao
    else
      match v with
      | Valor.num q => some q
      | Valor.str s =>
        match numeroJS (virgulaParaPonto (s.filter (fun c => !(c == '.')))) with
        | some q => some q
        | none => padrao

/-- Models `parseNumero` of `conversor-simples.js`: like the v2 parser but WITHOUT
stripping dots first. -/
def parseNumeroSimples (valor : Option Valor) (padrao : Option ℚ) : Option ℚ :=
  match valor with
  | none => padrao
  | some v =>
    if v = Valor.str [] then padrao
    else
      match v with
      | Valor.num q => some q
      | Valor.str s =>
        match numeroJS (virgulaParaPonto s) with
        | some q => some q
        | none => padrao

/-- Substring test (`String.prototype.includes`). -/
def contemSub (s sub : List Char) : Bool :=
  match s with
  | [] => sub.isEmpty
  | _ :: t => sub.isPrefixOf s || contemSub t sub

/-- The description-synonym columns tried by method 1 of `extrairDescricao`. -/
def colunasDescricao : List (List Char) :=
  [txt "Descrição", txt "Descricao", txt "Descr", txt "Desc", txt "Description",
   txt "Nome", txt "Nome do Produto", txt "Produto", txt "Denominação", txt "Denominacao"]

/-- ASCII letter (the `/[a-zA-Z]/` test of the scripts). -/
def ehLetraAscii (c : Char) : Bool :=
  (decide ('a' ≤ c) && decide (c ≤ 'z')) || (decide ('A' ≤ c) && decide (c ≤ 'Z'))

/-- A column skipped by method 2's exhaustive scan: its normalized name
contains one of the excluded substrings. -/
def colunaExcluida (col : List Char) : Bool :=
  contemSub (normalizar col) (txt "codigo") || contemSub (normalizar col) (txt "preco") ||
  contemSub (normalizar col) (txt "valor") || contemSub (normalizar col) (txt "ncm") ||
  contemSub (normalizar col) (txt "unidade")

/-- Method 1 of `extrairDescricao` (v2): the first synonym column whose
safely-read value is non-empty. -/
def metodo1 (row : Linha) : Option Valor :=
  colunasDescricao.findSome? (fun col =>
    let descricao := obterValorSeguro row [col] (Valor.str [])
    if estaVazio descricao then none else some descricao)

/-- The per-column test of method 2's exhaustive scan: non-excluded name,
non-blank string value of length at least 3 containing a letter. -/
def testeDescricao (row : Linha) (col : List Char) : Option (List Char) :=
  if colunaExcluida col then none
  else
    match jsGet row col with
    | some (Valor.str s) =>
      if !(trimJS s).isEmpty && decide (3 ≤ s.length) && s.any ehLetraAscii then some s
      else none
    | _ => none

/-- Method 2 of `extrairDescricao` (v2): scan all columns in insertion order
and return the FIRST qualifying value. -/
def metodo2 (row : Linha) : Option (List Char) :=
  (row.map Prod.fst).findSome? (testeDescricao row)

/-- Method 3 of `extrairDescricao` (v2): when the (safe) Código value is a
non-blank string containing a space, return everything after the first space. -/
def metodo3 (row : Linha) : Option (List Char) :=
  let codigo := obterValorSeguro row [txt "Código", txt "Codigo"] (Valor.str [])
  if estaVazio codigo then none
  else
    match codigo with
    | Valor.str s => if decide (' ' ∈ s) then some (joinSpace (splitSpace s).tail) else none
    | Valor.num _ => none

/-- The per-column test of method 4: non-blank string value of length
greater than 1 containing a letter (no column-name exclusions here). -/
def testeUltimo (row : Linha) (col : List Char) : Option (List Char) :=
  match jsGet row col with
  | some (Valor.str s) =>
    if !(trimJS s).isEmpty && decide (1 < s.length) && s.any ehLetraAscii then some s
    else none
  | _ => none

/-- Method 4 of `extrairDescricao` (v2): among all qualifying values pick the
longest (`reduce` keeps the earliest value on ties). -/
def metodo4 (row : Linha) : Option (List Char) :=
  match (row.map Prod.fst).filterMap (testeUltimo row) with
  | [] => none
  | h :: t => some (t.foldl (fun m a => if m.length < a.length then a else m) h)

/-- Models `extrairDescricao` of `conversor-final-corrigido-v2.js`: the four tiers
in order; the `mapaColunasEncontradas` and `index` parameters are accepted
but, as in the source, not used by the extraction itself. -/
def extrairDescricao (row : Linha) (_mapa : Mapa) (_index : Nat) : Valor :=
  match metodo1 row with
  | some v => v
  | none =>
    match metodo2 row with
    | some s => Valor.str s
    | none =>
      match metodo3 row with
      | some s => Valor.str s
      | none =>
        match metodo4 row with
        | some s => Valor.str s
        | none => Valor.str []

/-- The guard of the v2 `console.warn` that reports a substituted default
description for a row. -/
def avisoDescricaoPadrao (row : Linha) (mapa : Mapa) (index : Nat) : Bool :=
  estaVazio (extrairDescricao row mapa index)

/-- One output row of the fixed 57-column layout (plus ID), with the field
types the scripts actually produce: `Valor` for raw-copied cells, `List Char`
for built strings, `Option ℚ` for parsed numbers (`none` = null). -/
structure Registro where
  id : Option Nat
  codigo : Valor
  descricao : Valor
  unidade : Valor
  ncm : Valor
  origem : List Char
  preco : Option ℚ
  valorIpiFixo : Option ℚ
  observacoes : List Char
  situacao : List Char
  estoque : Option ℚ
  precoDeCusto : Option ℚ
  codNoFornecedor : Valor
  fornecedor : Valor
  localizacao : Valor
  estoqueMaximo : Option ℚ
  estoqueMinimo : Option ℚ
  pesoLiquido : Option ℚ
  pesoBruto : Option ℚ
  gtin : List Char
  gtinEmbalagem : List Char
  largura : Option ℚ
  altura : Option ℚ
  profundidade : Option ℚ
  dataValidade : List Char
  descricaoFornecedor : List Char
  descricaoComplementar : List Char
  itensPorCaixa : Option ℚ
  produtoVariacao : List Char
  tipoProducao : List Char
  classeIpi : List Char
  codListaServicos : List Char
  tipoItem : List Char
  grupoTags : List Char
  tributos : List Char
  codigoPai : List Char
  codigoIntegracao : List Char
  grupoDeProdutos : Valor
  marca : List Char
  cest : List Char
  volumes : Option ℚ
  descricaoCurta : List Char
  crossDocking : List Char
  urlImagens : List Char
  linkExterno : List Char
  mesesGarantia : Valor
  clonarDadosPai : List Char
  condicaoProduto : List Char
  freteGratis : List Char
  numeroFci : List Char
  video : List Char
  departamento : Valor
  unidadeDeMedida : List Char
  precoDeCompra : Option ℚ
  valorBaseIcmsSt : Option ℚ
  valorIcmsSt : Option ℚ
  valorIcmsProprio : Option ℚ
  categoriaProduto : List Char
  informacoesAdicionais : List Char
deriving DecidableEq

/-- The full-record body of `converterProduto` in
`conversor-final-corrigido-v2.js` (lines 155–277). -/
def nucleoConversaoV2 (produtoAtual : Linha) (mapa : Mapa) (index : Nat) : Registro :=
  let _catalogo := obterValorSeguro produtoAtual (candidatos mapa.catalogo [txt "Catálogo", txt "Catalogo"]) (Valor.str [])
  let codigoV := obterValorSeguro produtoAtual (candidatos mapa.codigo [txt "Código", txt "Codigo"]) (Valor.str [])
  let codigo := if verdadeiroJS codigoV then paraTexto codigoV else []
  let descricaoExtraida := extrairDescricao produtoAtual mapa index
  let descricao :=
    if estaVazio descricaoExtraida then Valor.str (txt "Produto " ++ textoNat (index + 1))
    else descricaoExtraida
  let unidade := obterValorSeguro produtoAtual (candidatos mapa.unidade [txt "Unidade"]) (Valor.str [])
  let ncm := obterValorSeguro produtoAtual (candidatos mapa.ncm [txt "NCM", txt "Classificação Fiscal", txt "Classificacao Fiscal"]) (Valor.str [])
  let precoVarejo := obterValorSeguro produtoAtual (candidatos mapa.precoVarejo [txt "Preço Varejo", txt "Preco Varejo"]) (Valor.str [])
  let precoAtacado := obterValorSeguro produtoAtual (candidatos mapa.precoAtacado [txt "Preço Atacado", txt "Preco Atacado"]) (Valor.str [])
  let precoPromocao := obterValorSeguro produtoAtual (candidatos mapa.precoPromocao [txt "Preço Promoção", txt "Preco Promocao"]) (Valor.str [])
  let estoque := obterValorSeguro produtoAtual (candidatos mapa.estoque [txt "Saldo Estoque", txt "Estoque"]) (Valor.str [])
  let precoCompra := obterValorSeguro produtoAtual (candidatos mapa.precoCompra [txt "Preço Compra", txt "Preco Compra"]) (Valor.str [])
  let codigoOriginal := obterValorSeguro produtoAtual (candidatos mapa.codigoOriginal [txt "Código Original", txt "Codigo Original"]) (Valor.str [])
  let fornecedor := obterValorSeguro produtoAtual (candidatos mapa.fornecedor [txt "Fornecedor"]) (Valor.str [])
  let endereco := obterValorSeguro produtoAtual (candidatos mapa.endereco [txt "Endereço", txt "Endereco"]) (Valor.str [])
  let endereco2 := obterValorSeguro produtoAtual (candidatos mapa.endereco2 [txt "Endereço 2", txt "Endereco 2"]) (Valor.str [])
  let garantia := obterValorSeguro produtoAtual (candidatos mapa.garantia [txt "Garantia"]) (Valor.str [])
  let pendencia := obterValorSeguro produtoAtual (candidatos mapa.pendencia [txt "Pendência", txt "Pendencia"]) (Valor.str [])
  let linha := obterValorSeguro produtoAtual (candidatos mapa.linha [txt "Linha"]) (Valor.str [])
  let grupo := obterValorSeguro produtoAtual (candidatos mapa.grupo [txt "Grupo"]) (Valor.str [])
  let observacoes :=
    (if estaVazio precoAtacado then [] else txt "Preço atacado: " ++ paraTexto precoAtacado ++ txt "; ") ++
    (if estaVazio precoPromocao then [] else txt "Preço promoção: " ++ paraTexto precoPromocao ++ txt "; ")
  let infoAdicionais :=
    (if estaVazio endereco2 then [] else txt "Endereço 2: " ++ paraTexto endereco2 ++ txt "; ") ++
    (if estaVazio pendencia then [] else txt "Pendência: " ++ paraTexto pendencia ++ txt "; ")
  { id := some (index + 1)
    codigo := Valor.str codigo
    descricao := descricao
    unidade := unidade
    ncm := ncm
    origem := []
    preco := parseNumeroV2 (some precoVarejo) (some 0)
    valorIpiFixo := none
    observacoes := observacoes
    situacao := []
    estoque := parseNumeroV2 (some estoque) (some 0)
    precoDeCusto := parseNumeroV2 (some precoCompra) (some 0)
    codNoFornecedor := codigoOriginal
    fornecedor := fornecedor
    localizacao := endereco
    estoqueMaximo := none
    estoqueMinimo := none
    pesoLiquido := none
    pesoBruto := none
    gtin := []
    gtinEmbalagem := []
    largura := none
    altura := none
    profundidade := none
    dataValidade := []
    descricaoFornecedor := []
    descricaoComplementar := []
    itensPorCaixa := none
    produtoVariacao := []
    tipoProducao := []
    classeIpi := []
    codListaServicos := []
    tipoItem := []
    grupoTags := []
    tributos := []
    codigoPai := []
    codigoIntegracao := []
    grupoDeProdutos := linha
    marca := []
    cest := []
    volumes := none
    descricaoCurta := []
    crossDocking := []
    urlImagens := []
    linkExterno := []
    mesesGarantia := garantia
    clonarDadosPai := []
    condicaoProduto := []
    freteGratis := []
    numeroFci := []
    video := []
    departamento := grupo
    unidadeDeMedida := []
    precoDeCompra := parseNumeroV2 (some precoCompra) (some 0)
    valorBaseIcmsSt := none
    valorIcmsSt := none
    valorIcmsProprio := none
    categoriaProduto := []
    informacoesAdicionais := infoAdicionais }

/-- Models `converterProduto` of v2.  The source wraps the body in try/catch, but no
operation of the body can throw, so the embedded converter always succeeds. -/
def converterProdutoV2 (row : Linha) (mapa : Mapa) (index : Nat) : Except (List Char) Registro :=
  Except.ok (nucleoConversaoV2 row mapa index)

/-- The record v2 produces for a row in which nothing is resolvable: every
field takes its schema default and the description is the placeholder. -/
def registroPadrao (index : Nat) : Registro :=
  { id := some (index + 1)
    codigo := Valor.str []
    descricao := Valor.str (txt "Produto " ++ textoNat (index + 1))
    unidade := Valor.str []
    ncm := Valor.str []
    origem := []
    preco := some 0
    valorIpiFixo := none
    observacoes := []
    situacao := []
    estoque := some 0
    precoDeCusto := some 0
    codNoFornecedor := Valor.str []
    fornecedor := Valor.str []
    localizacao := Valor.str []
    estoqueMaximo := none
    estoqueMinimo := none
    pesoLiquido := none
    pesoBruto := none
    gtin := []
    gtinEmbalagem := []
    largura := none
    altura := none
    profundidade := none
    dataValidade := []
    descricaoFornecedor := []
    descricaoComplementar := []
    itensPorCaixa := none
    produtoVariacao := []
    tipoProducao := []
    classeIpi := []
    codListaServicos := []
    tipoItem := []
    grupoTags := []
    tributos := []
    codigoPai := []
    codigoIntegracao := []
    grupoDeProdutos := Valor.str []
    marca := []
    cest := []
    volumes := none
    descricaoCurta := []
    crossDocking := []
    urlImagens := []
    linkExterno := []
    mesesGarantia := Valor.str []
    clonarDadosPai := []
    condicaoProduto := []
    freteGratis := []
    numeroFci := []
    video := []
    departamento := Valor.str []
    unidadeDeMedida := []
    precoDeCompra := some 0
    valorBaseIcmsSt := none
    valorIcmsSt := none
    valorIcmsProprio := none
    categoriaProduto := []
    informacoesAdicionais := [] }

/-- Lines 126–147 of `src/unnamed/part_001` (`conversor-final-corrigido`):
the description comes from the resolved description column only, and when it
is empty and the coerced code string contains a space the code is SPLIT —
the prefix overwrites Código and the remainder becomes the description (no
placeholder tier).  Returns the final (Código, Descrição) pair. -/
def codigoDescricaoCorrigido (produtoAtual : Linha) (mapa : Mapa) : List Char × Valor :=
  let codigoV := obterValorSeguro produtoAtual (candidatos mapa.codigo [txt "Código", txt "Codigo"]) (Valor.str [])
  let codigo0 := if verdadeiroJS codigoV then paraTexto codigoV else []
  let descricao0 := obterValorSeguro produtoAtual (candidatos mapa.descricao [txt "Descrição", txt "Descricao", txt "Descr"]) (Valor.str [])
  if estaVazio descricao0 && !(trimJS codigo0).isEmpty && decide (' ' ∈ codigo0) then
    ((splitSpace codigo0).headD [], Valor.str (joinSpace (splitSpace codigo0).tail))
  else (codigo0, descricao0)

/-- Models `converterProduto` of `src/unnamed/part_001`: the remaining fields are
as in v2.  The body cannot throw. -/
def nucleoConversaoCorrigido (produtoAtual : Linha) (mapa : Mapa) (index : Nat) : Registro :=
  let _catalogo := obterValorSeguro produtoAtual (candidatos mapa.catalogo [txt "Catálogo", txt "Catalogo"]) (Valor.str [])
  let codigo := (codigoDescricaoCorrigido produtoAtual mapa).1
  let descricao := (codigoDescricaoCorrigido produtoAtual mapa).2
  let unidade := obterValorSeguro produtoAtual (candidatos mapa.unidade [txt "Unidade"]) (Valor.str [])
  let ncm := obterValorSeguro produtoAtual (candidatos mapa.ncm [txt "NCM", txt "Classificação Fiscal", txt "Classificacao Fiscal"]) (Valor.str [])
  let precoVarejo := obterValorSeguro produtoAtual (candidatos mapa.precoVarejo [txt "Preço Varejo", txt "Preco Varejo"]) (Valor.str [])
  let precoAtacado := obterValorSeguro produtoAtual (candidatos mapa.precoAtacado [txt "Preço Atacado", txt "Preco Atacado"]) (Valor.str [])
  let precoPromocao := obterValorSeguro produtoAtual (candidatos mapa.precoPromocao [txt "Preço Promoção", txt "Preco Promocao"]) (Valor.str [])
  let estoque := obterValorSeguro produtoAtual (candidatos mapa.estoque [txt "Saldo Estoque", txt "Estoque"]) (Valor.str [])
  let precoCompra := obterValorSeguro produtoAtual (candidatos mapa.precoCompra [txt "Preço Compra", txt "Preco Compra"]) (Valor.str [])
  let codigoOriginal := obterValorSeguro produtoAtual (candidatos mapa.codigoOriginal [txt "Código Original", txt "Codigo Original"]) (Valor.str [])
  let fornecedor := obterValorSeguro produtoAtual (candidatos mapa.fornecedor [txt "Fornecedor"]) (Valor.str [])
  let endereco := obterValorSeguro produtoAtual (candidatos mapa.endereco [txt "Endereço", txt "Endereco"]) (Valor.str [])
  let endereco2 := obterValorSeguro produtoAtual (candidatos mapa.endereco2 [txt "Endereço 2", txt "Endereco 2"]) (Valor.str [])
  let garantia := obterValorSeguro produtoAtual (candidatos mapa.garantia [txt "Garantia"]) (Valor.str [])
  let pendencia := obterValorSeguro produtoAtual (candidatos mapa.pendencia [txt "Pendência", txt "Pendencia"]) (Valor.str [])
  let linha := obterValorSeguro produtoAtual (candidatos mapa.linha [txt "Linha"]) (Valor.str [])
  let grupo := obterValorSeguro produtoAtual (candidatos mapa.grupo [txt "Grupo"]) (Valor.str [])
  let observacoes :=
    (if estaVazio precoAtacado then [] else txt "Preço atacado: " ++ paraTexto precoAtacado ++ txt "; ") ++
    (if estaVazio precoPromocao then [] else txt "Preço promoção: " ++ paraTexto precoPromocao ++ txt "; ")
  let infoAdicionais :=
    (if estaVazio endereco2 then [] else txt "Endereço 2: " ++ paraTexto endereco2 ++ txt "; ") ++
    (if estaVazio pendencia then [] else txt "Pendência: " ++ paraTexto pendencia ++ txt "; ")
  { id := some (index + 1)
    codigo := Valor.str codigo
    descricao := descricao
    unidade := unidade
    ncm := ncm
    origem := []
    preco := parseNumeroV2 (some precoVarejo) (some 0)
    valorIpiFixo := none
    observacoes := observacoes
    situacao := []
    estoque := parseNumeroV2 (some estoque) (some 0)
    precoDeCusto := parseNumeroV2 (some precoCompra) (some 0)
    codNoFornecedor := codigoOriginal
    fornecedor := fornecedor
    localizacao := endereco
    estoqueMaximo := none
    estoqueMinimo := none
    pesoLiquido := none
    pesoBruto := none
    gtin := []
    gtinEmbalagem := []
    largura := none
    altura := none
    profundidade := none
    dataValidade := []
    descricaoFornecedor := []
    descricaoComplementar := []
    itensPorCaixa := none
    produtoVariacao := []
    tipoProducao := []
    classeIpi := []
    codListaServicos := []
    tipoItem := []
    grupoTags := []
    tributos := []
    codigoPai := []
    codigoIntegracao := []
    grupoDeProdutos := linha
    marca := []
    cest := []
    volumes := none
    descricaoCurta := []
    crossDocking := []
    urlImagens := []
    linkExterno := []
    mesesGarantia := garantia
    clonarDadosPai := []
    condicaoProduto := []
    freteGratis := []
    numeroFci := []
    video := []
    departamento := grupo
    unidadeDeMedida := []
    precoDeCompra := parseNumeroV2 (some precoCompra) (some 0)
    valorBaseIcmsSt := none
    valorIcmsSt := none
    valorIcmsProprio := none
    categoriaProduto := []
    informacoesAdicionais := infoAdicionais }

/-- Models `obterValorSeguro` of `conversor-simples.js`: a single key, no blank
check — only missing/null values fall back to the default. -/
def obterValorSeguroSimples (obj : Linha) (chave : List Char) (padrao : Valor) : Valor :=
  match jsGet obj chave with
  | none => padrao
  | some v => v

/-- Models `converterProduto` of `conversor-simples.js`: throws when the Código
value is falsy (the strict mandatory-field check); otherwise builds the
record from fixed header names, gating the composite text fields on JS
truthiness of the raw values. -/
def converterProdutoSimples (produtoAtual : Linha) : Except (List Char) Registro :=
  if verdadeiroJS (obterValorSeguroSimples produtoAtual (txt "Código") (Valor.str [])) then
    let precoAtacado := obterValorSeguroSimples produtoAtual (txt "Preço Atacado") (Valor.str [])
    let precoPromocao := obterValorSeguroSimples produtoAtual (txt "Preço Promoção") (Valor.str [])
    let endereco2 := obterValorSeguroSimples produtoAtual (txt "Endereço 2") (Valor.str [])
    let pendencia := obterValorSeguroSimples produtoAtual (txt "Pendência") (Valor.str [])
    let observacoes :=
      (if verdadeiroJS precoAtacado then txt "Preço atacado: " ++ paraTexto precoAtacado ++ txt "; " else []) ++
      (if verdadeiroJS precoPromocao then txt "Preço promoção: " ++ paraTexto precoPromocao ++ txt "; " else [])
    let infoAdicionais :=
      (if verdadeiroJS endereco2 then txt "Endereço 2: " ++ paraTexto endereco2 ++ txt "; " else []) ++
      (if verdadeiroJS pendencia then txt "Pendência: " ++ paraTexto pendencia ++ txt "; " else [])
    Except.ok
      { id := none
        codigo := obterValorSeguroSimples produtoAtual (txt "Código") (Valor.str [])
        descricao := obterValorSeguroSimples produtoAtual (txt "Descrição") (Valor.str [])
        unidade := obterValorSeguroSimples produtoAtual (txt "Unidade") (Valor.str [])
        ncm := obterValorSeguroSimples produtoAtual (txt "Classificação Fiscal") (Valor.str [])
        origem := []
        preco := parseNumeroSimples (jsGet produtoAtual (txt "Preço Varejo")) (some 0)
        valorIpiFixo := none
        observacoes := observacoes
        situacao := []
        estoque := parseNumeroSimples (jsGet produtoAtual (txt "Saldo Estoque")) (some 0)
        precoDeCusto := parseNumeroSimples (jsGet produtoAtual (txt "Preço Compra")) (some 0)
        codNoFornecedor := obterValorSeguroSimples produtoAtual (txt "Código Original") (Valor.str [])
        fornecedor := obterValorSeguroSimples produtoAtual (txt "Fornecedor") (Valor.str [])
        localizacao := obterValorSeguroSimples produtoAtual (txt "Endereço") (Valor.str [])
        estoqueMaximo := none
        estoqueMinimo := none
        pesoLiquido := none
        pesoBruto := none
        gtin := []
        gtinEmbalagem := []
        largura := none
        altura := none
        profundidade := none
        dataValidade := []
        descricaoFornecedor := []
        descricaoComplementar := []
        itensPorCaixa := none
        produtoVariacao := []
        tipoProducao := []
        classeIpi := []
        codListaServicos := []
        tipoItem := []
        grupoTags := []
        tributos := []
        codigoPai := []
        codigoIntegracao := []
        grupoDeProdutos := obterValorSeguroSimples produtoAtual (txt "Linha") (Valor.str [])
        marca := []
        cest := []
        volumes := none
        descricaoCurta := []
        crossDocking := []
        urlImagens := []
        linkExterno := []
        mesesGarantia := obterValorSeguroSimples produtoAtual (txt "Garantia") (Valor.str [])
        clonarDadosPai := []
        condicaoProduto := []
        freteGratis := []
        numeroFci := []
        video := []
        departamento := obterValorSeguroSimples produtoAtual (txt "Grupo") (Valor.str [])
        unidadeDeMedida := []
        precoDeCompra := parseNumeroSimples (jsGet produtoAtual (txt "Preço Compra")) (some 0)
        valorBaseIcmsSt := none
        valorIcmsSt := none
        valorIcmsProprio := none
        categoriaProduto := []
        informacoesAdicionais := infoAdicionais }
  else
    Except.error
      (txt "Erro ao converter produto " ++
        paraTexto (obterValorSeguroSimples produtoAtual (txt "Código") (Valor.str (txt "desconhecido"))) ++
        txt ": Campo Código é obrigatório")

/-- Accumulated outcome of a conversion run: the output rows in order and
the success/failure counters of the driver loop. -/
structure Resultado where
  produtos : List Registro
  sucessos : Nat
  falhas : Nat
deriving DecidableEq

/-- The row loop of `iniciar` in `conversor-simples.js`: each row either
yields one record (given its sequential 1-based ID) or one failure; the run
continues after failures. -/
def processarSimples : List Linha → Nat → Resultado
  | [], _ => ⟨[], 0, 0⟩
  | r :: rs, i =>
    let res := processarSimples rs (i + 1)
    match converterProdutoSimples r with
    | Except.ok rec => ⟨{ rec with id := some (i + 1) } :: res.produtos, res.sucessos + 1, res.falhas⟩
    | Except.error _ => ⟨res.produtos, res.sucessos, res.falhas + 1⟩

/-- The row loop of `iniciar` in `conversor-final-corrigido-v2.js`. -/
def processarV2 : List Linha → Mapa → Nat → Resultado
  | [], _, _ => ⟨[], 0, 0⟩
  | r :: rs, mapa, i =>
    let res := processarV2 rs mapa (i + 1)
    match converterProdutoV2 r mapa i with
    | Except.ok rec => ⟨rec :: res.produtos, res.sucessos + 1, res.falhas⟩
    | Except.error _ => ⟨res.produtos, res.sucessos, res.falhas + 1⟩

/-- The Observações value as specified for the v2/`part_001` mapper: one
labelled segment per non-empty price source, in order, where emptiness is
`estaVazio` (blank string or unresolved; a numeric 0 is NOT empty). -/
def observacoesFormaV2 (row : Linha) (mapa : Mapa) : List Char :=
  let precoAtacado := obterValorSeguro row (candidatos mapa.precoAtacado [txt "Preço Atacado", txt "Preco Atacado"]) (Valor.str [])
  let precoPromocao := obterValorSeguro row (candidatos mapa.precoPromocao [txt "Preço Promoção", txt "Preco Promocao"]) (Valor.str [])
  (if estaVazio precoAtacado then [] else txt "Preço atacado: " ++ paraTexto precoAtacado ++ txt "; ") ++
  (if estaVazio precoPromocao then [] else txt "Preço promoção: " ++ paraTexto precoPromocao ++ txt "; ")

/-- The Observações value as produced by `conversor-simples.js`: segments
gated on JS truthiness of the raw values (numeric 0 omitted, whitespace-only
strings included). -/
def observacoesFormaSimples (row : Linha) : List Char :=
  let precoAtacado := obterValorSeguroSimples row (txt "Preço Atacado") (Valor.str [])
  let precoPromocao := obterValorSeguroSimples row (txt "Preço Promoção") (Valor.str [])
  (if verdadeiroJS precoAtacado then txt "Preço atacado: " ++ paraTexto precoAtacado ++ txt "; " else []) ++
  (if verdadeiroJS precoPromocao then txt "Preço promoção: " ++ paraTexto precoPromocao ++ txt "; " else [])

/-! ## Helper lemmas -/

theorem find?_concat_alguma {α : Type} (p : α → Bool) (l₁ l₂ : List α) (a : α)
    (h₁ : ∀ x ∈ l₁, p x = false) (h₂ : p a = true) :
    (l₁ ++ a :: l₂).find? p = some a := by
  induction l₁ with
  | nil => simp [List.find?_cons, h₂]
  | cons b t ih =>
    have hb := h₁ b (List.mem_cons_self b t)
    simp only [List.cons_append, List.find?_cons, hb]
    exact ih (fun x hx => h₁ x (List.mem_cons_of_mem b hx))

theorem find?_tudo_falso {α : Type} (p : α → Bool) (l : List α)
    (h : ∀ x ∈ l, p x = false) : l.find? p = none := by
  induction l with
  | nil => rfl
  | cons b t ih =>
    simp only [List.find?_cons, h b (List.mem_cons_self b t)]
    exact ih (fun x hx => h x (List.mem_cons_of_mem b hx))

theorem findSome?_concat_alguma {α β : Type} (f : α → Option β) (l₁ l₂ : List α) (a : α) (b : β)
    (h₁ : ∀ x ∈ l₁, f x = none) (h₂ : f a = some b) :
    (l₁ ++ a :: l₂).findSome? f = some b := by
  induction l₁ with
  | nil => simp [List.findSome?_cons, h₂]
  | cons c t ih =>
    have hc := h₁ c (List.mem_cons_self c t)
    simp only [List.cons_append, List.findSome?_cons, hc]
    exact ih (fun x hx => h₁ x (List.mem_cons_of_mem c hx))

theorem findSome?_tudo_nada {α β : Type} (f : α → Option β) (l : List α)
    (h : ∀ x ∈ l, f x = none) : l.findSome? f = none := by
  induction l with
  | nil => rfl
  | cons c t ih =>
    simp only [List.findSome?_cons, h c (List.mem_cons_self c t)]
    exact ih (fun x hx => h x (List.mem_cons_of_mem c hx))

theorem encontrarColuna_nil (nomes : List (List Char)) : encontrarColuna [] nomes = none := by
  unfold encontrarColuna
  have h1 : List.find? (fun nome => chaveExiste [] nome) nomes = none :=
    find?_tudo_falso _ _ (fun x _ => rfl)
  rw [h1]
  rfl

theorem obterValorSeguro_nil (nomes : List (List Char)) (padrao : Valor) :
    obterValorSeguro [] nomes padrao = padrao := by
  unfold obterValorSeguro
  rw [encontrarColuna_nil]

theorem soltaNada {p : Char → Bool} {l : List Char} (h : ∀ c ∈ l, p c = false) :
    l.dropWhile p = l := by
  cases l with
  | nil => rfl
  | cons c t => simp [List.dropWhile_cons, h c (List.mem_cons_self c t)]

theorem aparaNada {l : List Char} (h : ∀ c ∈ l, ehEspacoJS c = false) : trimJS l = l := by
  unfold trimJS
  rw [soltaNada h, soltaNada (fun c hc => h c (List.mem_reverse.mp hc)), List.reverse_reverse]

theorem trocaVirgula (l r : List Char) (h : ∀ c ∈ l, c ≠ ',') :
    virgulaParaPonto (l ++ ',' :: r) = l ++ '.' :: r := by
  induction l with
  | nil => simp [virgulaParaPonto]
  | cons c t ih =>
    have hc : ¬(c = ',') := h c (List.mem_cons_self c t)
    simp only [List.cons_append, virgulaParaPonto, if_neg hc, List.append_eq]
    rw [ih (fun x hx => h x (List.mem_cons_of_mem c hx))]

theorem tomaDigitos : ∀ (a b : List Char), (∀ c ∈ a, c.isDigit = true) →
    (a ++ '.' :: b).takeWhile Char.isDigit = a
  | [], b, _ => by
    have hp : ('.' : Char).isDigit = false := rfl
    simp [List.takeWhile_cons, hp]
  | c :: t, b, ha => by
    have hc := ha c (List.mem_cons_self c t)
    rw [List.cons_append, List.takeWhile_cons, if_pos (by simp [hc]),
      tomaDigitos t b (fun x hx => ha x (List.mem_cons_of_mem c hx))]

theorem divideNaoVazio (s : List Char) : splitSpace s ≠ [] := by
  cases s with
  | nil => simp [splitSpace]
  | cons c t =>
    unfold splitSpace
    by_cases hc : c = ' '
    · simp [hc]
    · simp only [if_neg hc]
      cases splitSpace t <;> simp

theorem juntaSplit (s : List Char) : joinSpace (splitSpace s) = s := by
  induction s with
  | nil => rfl
  | cons c t ih =>
    unfold splitSpace
    by_cases hc : c = ' '
    · subst hc
      simp only [if_pos rfl]
      rcases hsp : splitSpace t with _ | ⟨h, r⟩
      · exact absurd hsp (divideNaoVazio t)
      · rw [hsp] at ih
        show joinSpace ([] :: h :: r) = ' ' :: t
        simp only [joinSpace, List.nil_append]
        rw [ih]
    · simp only [if_neg hc]
      rcases hsp : splitSpace t with _ | ⟨h, r⟩
      · exact absurd hsp (divideNaoVazio t)
      · rw [hsp] at ih
        cases r with
        | nil => simp only [joinSpace] at ih ⊢; rw [ih]
        | cons y r' =>
          simp only [joinSpace, List.cons_append] at ih ⊢
          rw [← ih]

theorem juntaCauda (s : List Char) (h : ' ' ∈ s) :
    joinSpace (splitSpace s).tail = aposPrimeiroEspaco s := by
  induction s with
  | nil => cases h
  | cons c t ih =>
    unfold splitSpace aposPrimeiroEspaco
    by_cases hc : c = ' '
    · subst hc
      simp only [if_pos rfl, List.tail_cons]
      exact juntaSplit t
    · have ht : ' ' ∈ t := by
        rcases List.mem_cons.mp h with h1 | h1
        · exact absurd h1.symm hc
        · exact h1
      simp only [if_neg hc]
      rcases hsp : splitSpace t with _ | ⟨hd, r⟩
      · exact absurd hsp (divideNaoVazio t)
      · rw [hsp] at ih
        simpa using ih ht

theorem cabecaSplit (s : List Char) : (splitSpace s).headD [] = antesPrimeiroEspaco s := by
  induction s with
  | nil => rfl
  | cons c t ih =>
    unfold splitSpace antesPrimeiroEspaco
    by_cases hc : c = ' '
    · subst hc
      simp [List.takeWhile_cons]
    · simp only [if_neg hc]
      rcases hsp : splitSpace t with _ | ⟨hd, r⟩
      · exact absurd hsp (divideNaoVazio t)
      · rw [hsp] at ih
        show c :: hd = antesPrimeiroEspaco (c :: t)
        unfold antesPrimeiroEspaco
        rw [List.takeWhile_cons, if_pos (by simp [hc])]
        simp only [List.headD_cons] at ih
        unfold antesPrimeiroEspaco at ih
        rw [ih]

theorem processarSimples_append (l₁ l₂ : List Linha) (i : Nat) :
    processarSimples (l₁ ++ l₂) i =
      ⟨(processarSimples l₁ i).produtos ++ (processarSimples l₂ (i + l₁.length)).produtos,
       (processarSimples l₁ i).sucessos + (processarSimples l₂ (i + l₁.length)).sucessos,
       (processarSimples l₁ i).falhas + (processarSimples l₂ (i + l₁.length)).falhas⟩ := by
  induction l₁ generalizing i with
  | nil => simp [processarSimples]
  | cons r t ih =>
    have harith : i + 1 + t.length = i + (t.length + 1) := by omega
    simp only [List.cons_append, processarSimples, List.append_eq, ih (i + 1), harith,
      List.length_cons]
    cases hconv : converterProdutoSimples r with
    | ok rec =>
      simp only [Resultado.mk.injEq, List.cons_append]
      exact ⟨trivial, by omega, trivial⟩
    | error e =>
      simp only [Resultado.mk.injEq]
      exact ⟨trivial, trivial, by omega⟩

/-! ## Claim theorems -/

/-- C5: for every run over any sequence of input rows, each row either
becomes exactly one output record or is counted as a failed row, so the
number of output records plus the number of failed rows equals the number of
input rows, in both the strict (`conversor-simples.js`) and the v2 driver
loop. -/
theorem claim5_theorem :
    (∀ (rows : List Linha) (i : Nat),
       (processarSimples rows i).produtos.length + (processarSimples rows i).falhas = rows.length) ∧
    (∀ (rows : List Linha) (mapa : Mapa) (i : Nat),
       (processarV2 rows mapa i).produtos.length + (processarV2 rows mapa i).falhas = rows.length) := by
  constructor
  · intro rows
    induction rows with
    | nil => intro i; rfl
    | cons r t ih =>
      intro i
      have h := ih (i + 1)
      simp only [processarSimples]
      cases hconv : converterProdutoSimples r with
      | ok rec =>
        dsimp only
        simp only [List.length_cons]
        omega
      | error e =>
        dsimp only
        simp only [List.length_cons]
        omega
  · intro rows mapa
    induction rows with
    | nil => intro i; rfl
    | cons r t ih =>
      intro i
      have h := ih (i + 1)
      simp only [processarV2]
      cases hconv : converterProdutoV2 r mapa i with
      | ok rec =>
        dsimp only
        simp only [List.length_cons]
        omega
      | error e => simp [converterProdutoV2] at hconv

/-- C7: extraction in the v2 converter is total — it returns a record for
every row object and column map without raising an error — and on a row with
no usable column every field takes its schema default (`registroPadrao`),
including the placeholder description. -/
theorem claim7_theorem :
    (∀ (row : Linha) (mapa : Mapa) (idx : Nat),
       ∃ rec, converterProdutoV2 row mapa idx = Except.ok rec) ∧
    (∀ (mapa : Mapa) (idx : Nat), nucleoConversaoV2 [] mapa idx = registroPadrao idx) := by
  constructor
  · exact fun row mapa idx => ⟨nucleoConversaoV2 row mapa idx, rfl⟩
  · intro mapa idx
    unfold nucleoConversaoV2
    simp only [obterValorSeguro_nil]
    rfl

/-- C10: in every record produced by each converter variant, the output
column 'Preço de custo' equals 'Preço de compra' — both are the parsed
purchase price with default 0. -/
theorem claim10_theorem :
    (∀ (row : Linha) (mapa : Mapa) (idx : Nat),
       (nucleoConversaoV2 row mapa idx).precoDeCusto = (nucleoConversaoV2 row mapa idx).precoDeCompra) ∧
    (∀ row : Linha,
       (converterProdutoSimples row).map (fun rec => rec.precoDeCusto) =
       (converterProdutoSimples row).map (fun rec => rec.precoDeCompra)) ∧
    (∀ (row : Linha) (mapa : Mapa) (idx : Nat),
       (nucleoConversaoCorrigido row mapa idx).precoDeCusto =
         (nucleoConversaoCorrigido row mapa idx).precoDeCompra) := by
  refine ⟨fun row mapa idx => rfl, ?_, fun row mapa idx => rfl⟩
  intro row
  unfold converterProdutoSimples
  by_cases h : verdadeiroJS (obterValorSeguroSimples row (txt "Código") (Valor.str [])) = true <;>
    simp [h, Except.map]

/-- C9 (amended): the v2 Observações field is the concatenation of the two
labelled price segments gated on `estaVazio` emptiness, while the
`conversor-simples.js` Observações is gated on JS truthiness of the raw
values instead; the two gates disagree (e.g. on a numeric 0). -/
theorem claim9_theorem :
    (∀ (row : Linha) (mapa : Mapa) (idx : Nat),
       (nucleoConversaoV2 row mapa idx).observacoes = observacoesFormaV2 row mapa) ∧
    (∀ row : Linha,
       (converterProdutoSimples row).map (fun rec => rec.observacoes) =
       (converterProdutoSimples row).map (fun _ => observacoesFormaSimples row)) := by
  constructor
  · intro row mapa idx; rfl
  · intro row
    unfold converterProdutoSimples
    by_cases h : verdadeiroJS (obterValorSeguroSimples row (txt "Código") (Valor.str [])) = true <;>
      simp [h, Except.map, observacoesFormaSimples]

/-- C9 counterexample: on the row with Código "1" and 'Preço Atacado' the
number 0, the v2 mapper emits "Preço atacado: 0; " but the simples mapper
emits "", so no single per-row Observações formula covers both cited
variants. -/
theorem claim9_counterexample :
    (nucleoConversaoV2 [(txt "Código", Valor.str (txt "1")), (txt "Preço Atacado", Valor.num 0)]
        mapaVazio 0).observacoes = txt "Preço atacado: 0; " ∧
    (converterProdutoSimples
        [(txt "Código", Valor.str (txt "1")), (txt "Preço Atacado", Valor.num 0)]).map
        (fun rec => rec.observacoes) = Except.ok [] ∧
    txt "Preço atacado: 0; " ≠ ([] : List Char) := by
  refine ⟨by decide, by rfl, by decide⟩

/-- C4: in the strict variant (`conversor-simples.js`), a row whose Código
value is falsy (missing or the empty string) fails conversion with the
mandatory-field error; in the driver loop that row is excluded from the
output, the failure count grows by exactly 1, and all rows before and after
it are processed normally (the run is not aborted). -/
theorem claim4_theorem (pre post : List Linha) (r : Linha) (i : Nat)
    (h : verdadeiroJS (obterValorSeguroSimples r (txt "Código") (Valor.str [])) = false) :
    (∃ e, converterProdutoSimples r = Except.error e) ∧
    processarSimples (pre ++ r :: post) i =
      ⟨(processarSimples pre i).produtos ++
         (processarSimples post (i + pre.length + 1)).produtos,
       (processarSimples pre i).sucessos + (processarSimples post (i + pre.length + 1)).sucessos,
       (processarSimples pre i).falhas + (processarSimples post (i + pre.length + 1)).falhas + 1⟩ := by
  have herr : ∃ e, converterProdutoSimples r = Except.error e := by
    unfold converterProdutoSimples
    rw [if_neg (by simp [h])]
    exact ⟨_, rfl⟩
  obtain ⟨e, he⟩ := herr
  refine ⟨⟨e, he⟩, ?_⟩
  rw [processarSimples_append pre (r :: post) i]
  simp only [processarSimples, he]
  rfl

/-- C4 witness: a concrete three-row run where the middle row has no Código:
it is dropped, the other two rows survive, and the failure count is 1. -/
theorem claim4_witness :
    verdadeiroJS (obterValorSeguroSimples ([] : Linha) (txt "Código") (Valor.str [])) = false ∧
    processarSimples ([[(txt "Código", Valor.str (txt "A1"))]] ++ ([] : Linha) ::
        [[(txt "Código", Valor.str (txt "B2"))]]) 0 =
      ⟨(processarSimples [[(txt "Código", Valor.str (txt "A1"))]] 0).produtos ++
         (processarSimples [[(txt "Código", Valor.str (txt "B2"))]]
           (0 + [[(txt "Código", Valor.str (txt "A1"))]].length + 1)).produtos,
       (processarSimples [[(txt "Código", Valor.str (txt "A1"))]] 0).sucessos +
         (processarSimples [[(txt "Código", Valor.str (txt "B2"))]]
           (0 + [[(txt "Código", Valor.str (txt "A1"))]].length + 1)).sucessos,
       (processarSimples [[(txt "Código", Valor.str (txt "A1"))]] 0).falhas +
         (processarSimples [[(txt "Código", Valor.str (txt "B2"))]]
           (0 + [[(txt "Código", Valor.str (txt "A1"))]].length + 1)).falhas + 1⟩ :=
  ⟨by decide,
   (claim4_theorem [[(txt "Código", Valor.str (txt "A1"))]]
     [[(txt "Código", Valor.str (txt "B2"))]] [] 0 (by decide)).2⟩

/-- C6: for every header set and ordered candidate list, the column resolver
binds the first candidate that exactly matches a header when one exists;
otherwise it binds the first header, in original header order, whose
normalization (NFD, diacritic stripping, lower-casing, trimming) equals the
normalization of some candidate; and when neither match exists it returns
`none` without error. -/
theorem claim6_theorem (row : Linha) (nomes : List (List Char)) :
    (∀ ns₁ n ns₂, nomes = ns₁ ++ n :: ns₂ → (∀ x ∈ ns₁, chaveExiste row x = false) →
       chaveExiste row n = true → encontrarColuna row nomes = some n) ∧
    ((∀ n ∈ nomes, chaveExiste row n = false) →
       ∀ ks₁ k ks₂, row.map Prod.fst = ks₁ ++ k :: ks₂ →
         (∀ x ∈ ks₁, decide (normalizar x ∈ nomes.map normalizar) = false) →
         decide (normalizar k ∈ nomes.map normalizar) = true →
         encontrarColuna row nomes = some k) ∧
    ((∀ n ∈ nomes, chaveExiste row n = false) →
       (∀ k ∈ row.map Prod.fst, decide (normalizar k ∈ nomes.map normalizar) = false) →
       encontrarColuna row nomes = none) := by
  refine ⟨?_, ?_, ?_⟩
  · intro ns₁ n ns₂ hsplit hbefore hn
    unfold encontrarColuna
    rw [hsplit, find?_concat_alguma _ ns₁ ns₂ n hbefore hn]
  · intro hexato ks₁ k ks₂ hsplit hbefore hk
    unfold encontrarColuna
    rw [find?_tudo_falso _ _ hexato]
    dsimp only
    rw [hsplit, find?_concat_alguma _ ks₁ ks₂ k hbefore hk]
  · intro hexato hnorm
    unfold encontrarColuna
    rw [find?_tudo_falso _ _ hexato]
    dsimp only
    rw [find?_tudo_falso _ _ hnorm]

/-- C6 witness: no candidate is an exact key of the row, yet the header
"CÓDIGO" normalization-matches the candidate "Código", so the resolver binds
it. -/
theorem claim6_witness :
    (∀ n ∈ [txt "Código", txt "Codigo"],
       chaveExiste [(txt "CÓDIGO", Valor.str (txt "1"))] n = false) ∧
    encontrarColuna [(txt "CÓDIGO", Valor.str (txt "1"))] [txt "Código", txt "Codigo"] =
      some (txt "CÓDIGO") :=
  ⟨by decide,
   (claim6_theorem [(txt "CÓDIGO", Valor.str (txt "1"))] [txt "Código", txt "Codigo"]).2.1
     (by decide) [] (txt "CÓDIGO") [] (by decide) (by decide) (by decide)⟩

/-- C2 counterexample: both "Red" (column Cor) and "Blue Widget" (column
Obs) qualify in the exhaustive scan, yet the description resolves to the
FIRST qualifying value "Red", not the longest one "Blue Widget". -/
theorem claim2_counterexample :
    testeDescricao [(txt "Cor", Valor.str (txt "Red")), (txt "Obs", Valor.str (txt "Blue Widget"))]
      (txt "Cor") = some (txt "Red") ∧
    testeDescricao [(txt "Cor", Valor.str (txt "Red")), (txt "Obs", Valor.str (txt "Blue Widget"))]
      (txt "Obs") = some (txt "Blue Widget") ∧
    extrairDescricao [(txt "Cor", Valor.str (txt "Red")), (txt "Obs", Valor.str (txt "Blue Widget"))]
      mapaVazio 0 = Valor.str (txt "Red") ∧
    Valor.str (txt "Red") ≠ Valor.str (txt "Blue Widget") :=
  ⟨by decide, by decide, by decide, by decide⟩

/-- C2 (amended): when no synonym column yields a description, the
exhaustive scan accepts the FIRST qualifying value in column order (not the
longest); the longest-value rule belongs only to the last-resort tier.  With
exactly "AB" and "Blue Widget" present the description still resolves to
"Blue Widget", because "AB" (length 2) never qualifies in the scan. -/
theorem claim2_theorem :
    (∀ (row : Linha) (mapa : Mapa) (idx : Nat) (s : List Char),
       metodo1 row = none → metodo2 row = some s →
       extrairDescricao row mapa idx = Valor.str s) ∧
    (∀ (row : Linha) (ks₁ : List (List Char)) (k : List Char) (ks₂ : List (List Char))
       (s : List Char),
       row.map Prod.fst = ks₁ ++ k :: ks₂ →
       (∀ x ∈ ks₁, testeDescricao row x = none) → testeDescricao row k = some s →
       metodo2 row = some s) ∧
    extrairDescricao
      [(txt "Campo1", Valor.str (txt "AB")), (txt "Campo2", Valor.str (txt "Blue Widget"))]
      mapaVazio 0 = Valor.str (txt "Blue Widget") := by
  refine ⟨?_, ?_, by decide⟩
  · intro row mapa idx s h1 h2
    unfold extrairDescricao
    rw [h1, h2]
  · intro row ks₁ k ks₂ s hsplit hbefore hk
    unfold metodo2
    rw [hsplit, findSome?_concat_alguma _ ks₁ ks₂ k s hbefore hk]

/-- C2 witness: on the Red/Blue-Widget row the synonym tier is empty, the
scan finds "Red" first, and the extracted description is "Red". -/
theorem claim2_witness :
    metodo1 [(txt "Cor", Valor.str (txt "Red")), (txt "Obs", Valor.str (txt "Blue Widget"))] = none ∧
    extrairDescricao [(txt "Cor", Valor.str (txt "Red")), (txt "Obs", Valor.str (txt "Blue Widget"))]
      mapaVazio 0 = Valor.str (txt "Red") :=
  ⟨by decide,
   claim2_theorem.1 [(txt "Cor", Valor.str (txt "Red")), (txt "Obs", Valor.str (txt "Blue Widget"))]
     mapaVazio 0 (txt "Red") (by decide)
     (claim2_theorem.2.1
       [(txt "Cor", Valor.str (txt "Red")), (txt "Obs", Valor.str (txt "Blue Widget"))]
       [] (txt "Cor") [txt "Obs"] (txt "Red") (by decide) (by decide) (by decide))⟩

/-- C8 counterexample: in the row whose only cell is the string "AB" no
description column, qualifying scanned column (length ≥ 3) or code split is
available, yet the description becomes "AB" via the last-resort tier, not
the placeholder "Produto 1". -/
theorem claim8_counterexample :
    (nucleoConversaoV2 [(txt "Rotulo", Valor.str (txt "AB"))] mapaVazio 0).descricao =
      Valor.str (txt "AB") ∧
    Valor.str (txt "AB") ≠ Valor.str (txt "Produto 1") :=
  ⟨by decide, by decide⟩

/-- C8 (amended): when all FOUR description tiers yield nothing — synonym
columns, exhaustive scan, code split, and the last-resort longest-value scan
— the produced Descrição is the placeholder "Produto n" (n the 1-based row
position) and the default-description warning condition holds. -/
theorem claim8_theorem (row : Linha) (mapa : Mapa) (idx : Nat)
    (h1 : metodo1 row = none) (h2 : metodo2 row = none) (h3 : metodo3 row = none)
    (h4 : metodo4 row = none) :
    (nucleoConversaoV2 row mapa idx).descricao =
      Valor.str (txt "Produto " ++ textoNat (idx + 1)) ∧
    avisoDescricaoPadrao row mapa idx = true := by
  have he : extrairDescricao row mapa idx = Valor.str [] := by
    unfold extrairDescricao
    rw [h1, h2, h3, h4]
  constructor
  · unfold nucleoConversaoV2
    dsimp only
    rw [he, if_pos (show estaVazio (Valor.str []) = true from rfl)]
  · unfold avisoDescricaoPadrao
    rw [he]
    rfl

/-- C8 witness: a row whose only cell is a purely numeric code gets the
placeholder description "Produto 1" together with the warning condition. -/
theorem claim8_witness :
    (metodo1 [(txt "Código", Valor.str (txt "987654"))] = none ∧
     metodo2 [(txt "Código", Valor.str (txt "987654"))] = none ∧
     metodo3 [(txt "Código", Valor.str (txt "987654"))] = none ∧
     metodo4 [(txt "Código", Valor.str (txt "987654"))] = none) ∧
    (nucleoConversaoV2 [(txt "Código", Valor.str (txt "987654"))] mapaVazio 0).descricao =
      Valor.str (txt "Produto 1") ∧
    avisoDescricaoPadrao [(txt "Código", Valor.str (txt "987654"))] mapaVazio 0 = true := by
  have h := claim8_theorem [(txt "Código", Valor.str (txt "987654"))] mapaVazio 0
    (by decide) (by decide) (by decide) (by decide)
  refine ⟨⟨by decide, by decide, by decide, by decide⟩, ?_, h.2⟩
  rw [h.1]
  decide

/-- C1 counterexample: (i) in v2, the row with Código "123 Parafuso" gets
Descrição "Parafuso" but its output Código keeps the FULL original string —
the split does not overwrite Code with the prefix "123"; (ii) a code whose
internal whitespace is a tab is not split at all (`includes(' ')` tests only
the space character), so its Descrição is the whole code string picked up by
the last-resort tier, not the substring after the whitespace run. -/
theorem claim1_counterexample :
    (nucleoConversaoV2 [(txt "Código", Valor.str (txt "123 Parafuso"))] mapaVazio 0).descricao =
      Valor.str (txt "Parafuso") ∧
    (nucleoConversaoV2 [(txt "Código", Valor.str (txt "123 Parafuso"))] mapaVazio 0).codigo =
      Valor.str (txt "123 Parafuso") ∧
    Valor.str (txt "123 Parafuso") ≠ Valor.str (txt "123") ∧
    (nucleoConversaoV2 [(txt "Código", Valor.str (txt "12\t34X"))] mapaVazio 0).descricao =
      Valor.str (txt "12\t34X") ∧
    Valor.str (txt "12\t34X") ≠ Valor.str (txt "34X") :=
  ⟨by decide, by decide, by decide, by decide, by decide⟩

/-- C1 (amended): when the safely-read Código is a non-blank string
containing a SPACE character and no earlier description tier fires, then
(i) in the v2 converter the Descrição is the substring after the first space
(when that remainder is non-blank) while the output Código keeps the full
unsplit Code string; (ii) only in the `part_001` variant does the split also
overwrite Código with the substring before the first space. -/
theorem claim1_theorem :
    (∀ (row : Linha) (mapa : Mapa) (idx : Nat) (s : List Char),
       mapa.codigo = none → metodo1 row = none → metodo2 row = none →
       obterValorSeguro row [txt "Código", txt "Codigo"] (Valor.str []) = Valor.str s →
       (trimJS s).isEmpty = false → decide (' ' ∈ s) = true →
       (trimJS (aposPrimeiroEspaco s)).isEmpty = false →
       (nucleoConversaoV2 row mapa idx).descricao = Valor.str (aposPrimeiroEspaco s) ∧
       (nucleoConversaoV2 row mapa idx).codigo = Valor.str s) ∧
    (∀ (row : Linha) (mapa : Mapa) (idx : Nat) (s : List Char),
       mapa.codigo = none → mapa.descricao = none →
       estaVazio (obterValorSeguro row [txt "Descrição", txt "Descricao", txt "Descr"]
         (Valor.str [])) = true →
       obterValorSeguro row [txt "Código", txt "Codigo"] (Valor.str []) = Valor.str s →
       (trimJS s).isEmpty = false → decide (' ' ∈ s) = true →
       (nucleoConversaoCorrigido row mapa idx).descricao = Valor.str (aposPrimeiroEspaco s) ∧
       (nucleoConversaoCorrigido row mapa idx).codigo = Valor.str (antesPrimeiroEspaco s)) := by
  constructor
  · intro row mapa idx s hm hm1 hm2 hc hnb hsp hrem
    have hmem : ' ' ∈ s := of_decide_eq_true hsp
    have hsne : s.isEmpty = false := by
      cases s with
      | nil => cases hmem
      | cons c t => rfl
    have hm3 : metodo3 row = some (joinSpace (splitSpace s).tail) := by
      simp only [metodo3, hc]
      rw [if_neg (by simp [estaVazio, hnb])]
      try dsimp only
      rw [if_pos hsp]
    have hext : extrairDescricao row mapa idx = Valor.str (aposPrimeiroEspaco s) := by
      unfold extrairDescricao
      rw [hm1, hm2, hm3, juntaCauda s hmem]
    constructor
    · unfold nucleoConversaoV2
      dsimp only
      rw [hext, if_neg (by simp [estaVazio, hrem])]
    · unfold nucleoConversaoV2
      dsimp only
      rw [hm]
      dsimp only [candidatos]
      rw [hc, if_pos (show verdadeiroJS (Valor.str s) = true by simp [verdadeiroJS, hsne])]
      rfl
  · intro row mapa idx s hmc hmd hd hc hnb hsp
    have hmem : ' ' ∈ s := of_decide_eq_true hsp
    have hsne : s.isEmpty = false := by
      cases s with
      | nil => cases hmem
      | cons c t => rfl
    have hpar : codigoDescricaoCorrigido row mapa =
        (antesPrimeiroEspaco s, Valor.str (aposPrimeiroEspaco s)) := by
      unfold codigoDescricaoCorrigido
      dsimp only
      rw [hmc, hmd]
      dsimp only [candidatos]
      rw [hc, if_pos (show verdadeiroJS (Valor.str s) = true by simp [verdadeiroJS, hsne]),
        show paraTexto (Valor.str s) = s from rfl, hd, hnb, hsp]
      simp [juntaCauda s hmem]
      have hhd : (splitSpace s).head?.getD [] = (splitSpace s).headD [] := by
        cases splitSpace s <;> rfl
      rw [hhd]
      exact cabecaSplit s
    constructor
    · unfold nucleoConversaoCorrigido
      dsimp only
      rw [hpar]
    · unfold nucleoConversaoCorrigido
      dsimp only
      rw [hpar]

/-- C1 witness: on the row with Código "123 Parafuso Phillips", the v2
converter yields Descrição "Parafuso Phillips" with Código unchanged, while
the `part_001` converter yields Descrição "Parafuso Phillips" with Código
overwritten to "123". -/
theorem claim1_witness :
    metodo1 [(txt "Código", Valor.str (txt "123 Parafuso Phillips"))] = none ∧
    (nucleoConversaoV2 [(txt "Código", Valor.str (txt "123 Parafuso Phillips"))] mapaVazio 0).descricao =
      Valor.str (txt "Parafuso Phillips") ∧
    (nucleoConversaoV2 [(txt "Código", Valor.str (txt "123 Parafuso Phillips"))] mapaVazio 0).codigo =
      Valor.str (txt "123 Parafuso Phillips") ∧
    (nucleoConversaoCorrigido [(txt "Código", Valor.str (txt "123 Parafuso Phillips"))] mapaVazio 0).descricao =
      Valor.str (txt "Parafuso Phillips") ∧
    (nucleoConversaoCorrigido [(txt "Código", Valor.str (txt "123 Parafuso Phillips"))] mapaVazio 0).codigo =
      Valor.str (txt "123") := by
  have h1 := claim1_theorem.1 [(txt "Código", Valor.str (txt "123 Parafuso Phillips"))]
    mapaVazio 0 (txt "123 Parafuso Phillips") rfl (by decide) (by decide) (by decide)
    (by decide) (by decide) (by decide)
  have h2 := claim1_theorem.2 [(txt "Código", Valor.str (txt "123 Parafuso Phillips"))]
    mapaVazio 0 (txt "123 Parafuso Phillips") rfl rfl (by decide) (by decide)
    (by decide) (by decide)
  refine ⟨by decide, ?_, ?_, ?_, ?_⟩
  · rw [h1.1]; decide
  · rw [h1.2]
  · rw [h2.1]; decide
  · rw [h2.2]; decide

theorem filtroPonto (l : List Char) (h : ∀ c ∈ l, c.isDigit = true ∨ c = '.') :
    l.filter (fun c => !(c == '.')) = l.filter Char.isDigit := by
  apply List.filter_congr
  intro c hc
  rcases h c hc with hd | hd
  · have hne : (c == '.') = false := by
      rcases Bool.eq_false_or_eq_true (c == '.') with h0 | h0
      · rw [eq_of_beq h0] at hd
        exact absurd hd (by decide)
      · exact h0
    rw [hne, hd]
    rfl
  · subst hd
    decide

theorem digitoNaoEspaco {c : Char} (h : c.isDigit = true) : ehEspacoJS c = false := by
  have h0 : '0' ≤ c ∧ c ≤ '9' := by
    unfold Char.isDigit at h
    simp only [Bool.and_eq_true, decide_eq_true_eq] at h
    exact h
  unfold ehEspacoJS
  have hw : ∀ w : Char, w < '0' → (c == w) = false := by
    intro w hw
    apply beq_eq_false_iff_ne.mpr
    intro he
    subst he
    exact absurd h0.1 (not_le.mpr hw)
  rw [hw ' ' (by decide), hw '\t' (by decide), hw '\n' (by decide), hw '\r' (by decide)]
  rfl

theorem concatPontoNaoVazio (A B : List Char) : (A ++ '.' :: B).isEmpty = false := by
  cases A <;> rfl

theorem sinalDireto (A B : List Char) (hA : ∀ c ∈ A, c.isDigit = true) :
    numeroComSinal (A ++ '.' :: B) = numeroDecimal (A ++ '.' :: B) := by
  cases A with
  | nil => rfl
  | cons c t =>
    have hc := hA c (List.mem_cons_self c t)
    show numeroComSinal (c :: (t ++ '.' :: B)) = numeroDecimal (c :: (t ++ '.' :: B))
    unfold numeroComSinal
    dsimp only
    rw [if_neg (fun he => by rw [he] at hc; exact absurd hc (by decide)),
      if_neg (fun he => by rw [he] at hc; exact absurd hc (by decide))]

theorem decimalConcat (A B : List Char) (hA : ∀ c ∈ A, c.isDigit = true)
    (hB : ∀ c ∈ B, c.isDigit = true) (hne : ¬(A = [] ∧ B = [])) :
    numeroDecimal (A ++ '.' :: B) =
      some ((digitosValor A : ℚ) + (digitosValor B : ℚ) / 10 ^ B.length) := by
  have hall : B.all Char.isDigit = true := by
    rw [List.all_eq_true]
    intro x hx
    exact hB x hx
  have hAB : (A.isEmpty && B.isEmpty) = false := by
    cases A with
    | nil =>
      cases B with
      | nil => exact absurd ⟨rfl, rfl⟩ hne
      | cons x xs => rfl
    | cons x xs => rfl
  unfold numeroDecimal
  dsimp only
  rw [tomaDigitos A B hA, List.drop_left]
  simp [hall, hAB]

/-- C3 counterexample: the `conversor-simples.js` parser (also cited by the
claim) does NOT strip thousands dots, so the canonical input "1.234,56" is
unparsable there and yields the configured default instead of 1234.56. -/
theorem claim3_counterexample :
    parseNumeroSimples (some (Valor.str (txt "1.234,56"))) (some 0) = some 0 ∧
    some ((0 : ℚ)) ≠ some ((123456 : ℚ) / 100) :=
  ⟨by decide, by norm_num⟩

/-- C3 (amended): the v2/`part_001` parser maps every thousands-dot /
decimal-comma string (digits and dots around a single comma, with at least
one digit) to the corresponding rational; both parsers map "abc" and
empty/missing input to the configured default and never throw; the
`conversor-simples.js` parser, which lacks the dot-stripping step, yields
the default on "1.234,56". -/
theorem claim3_theorem :
    (∀ (a b : List Char) (d : Option ℚ),
       (∀ c ∈ a, c.isDigit = true ∨ c = '.') →
       (∀ c ∈ b, c.isDigit = true ∨ c = '.') →
       ¬(a.filter Char.isDigit = [] ∧ b.filter Char.isDigit = []) →
       parseNumeroV2 (some (Valor.str (a ++ ',' :: b))) d =
         some ((digitosValor (a.filter Char.isDigit) : ℚ) +
           (digitosValor (b.filter Char.isDigit) : ℚ) / 10 ^ (b.filter Char.isDigit).length)) ∧
    (∀ d, parseNumeroV2 (some (Valor.str (txt "abc"))) d = d) ∧
    (∀ d, parseNumeroSimples (some (Valor.str (txt "abc"))) d = d) ∧
    (∀ d, parseNumeroV2 none d = d ∧ parseNumeroV2 (some (Valor.str [])) d = d ∧
       parseNumeroSimples none d = d ∧ parseNumeroSimples (some (Valor.str [])) d = d) ∧
    (∀ d, parseNumeroSimples (some (Valor.str (txt "1.234,56"))) d = d) := by
  refine ⟨?_, fun d => rfl, fun d => rfl, fun d => ⟨rfl, rfl, rfl, rfl⟩, fun d => rfl⟩
  intro a b d ha hb hne
  have hfa : ∀ c ∈ a.filter Char.isDigit, c.isDigit = true := fun c hc => List.of_mem_filter hc
  have hfb : ∀ c ∈ b.filter Char.isDigit, c.isDigit = true := fun c hc => List.of_mem_filter hc
  have h1 : (a ++ ',' :: b).filter (fun c => !(c == '.')) =
      a.filter Char.isDigit ++ ',' :: b.filter Char.isDigit := by
    rw [List.filter_append,
      show List.filter (fun c => !(c == '.')) (',' :: b) =
        ',' :: List.filter (fun c => !(c == '.')) b from rfl,
      filtroPonto a ha, filtroPonto b hb]
  have hno : ∀ c ∈ a.filter Char.isDigit, c ≠ ',' := by
    intro c hc he
    have hd := hfa c hc
    rw [he] at hd
    exact absurd hd (by decide)
  have h2 : virgulaParaPonto (a.filter Char.isDigit ++ ',' :: b.filter Char.isDigit) =
      a.filter Char.isDigit ++ '.' :: b.filter Char.isDigit := trocaVirgula _ _ hno
  have hws : ∀ c ∈ a.filter Char.isDigit ++ '.' :: b.filter Char.isDigit,
      ehEspacoJS c = false := by
    intro c hc
    rcases List.mem_append.mp hc with h0 | h0
    · exact digitoNaoEspaco (hfa c h0)
    · rcases List.mem_cons.mp h0 with h0 | h0
      · subst h0; rfl
      · exact digitoNaoEspaco (hfb c h0)
  have hnum : numeroJS (a.filter Char.isDigit ++ '.' :: b.filter Char.isDigit) =
      some ((digitosValor (a.filter Char.isDigit) : ℚ) +
        (digitosValor (b.filter Char.isDigit) : ℚ) / 10 ^ (b.filter Char.isDigit).length) := by
    unfold numeroJS
    dsimp only
    rw [aparaNada hws, if_neg (by simp [concatPontoNaoVazio]),
      sinalDireto _ _ hfa, decimalConcat _ _ hfa hfb hne]
  have hlist : a ++ ',' :: b ≠ [] := by cases a <;> simp
  have hsneq : Valor.str (a ++ ',' :: b) ≠ Valor.str [] := fun he => hlist (Valor.str.inj he)
  unfold parseNumeroV2
  try dsimp only
  rw [if_neg hsneq]
  try dsimp only
  rw [h1, h2, hnum]

/-- C3 witness: the canonical input "1.234,56" parses to 1234.56 in the
v2/`part_001` parser. -/
theorem claim3_witness :
    (∀ c ∈ txt "1.234", c.isDigit = true ∨ c = '.') ∧
    parseNumeroV2 (some (Valor.str (txt "1.234,56"))) (some 0) = some ((123456 : ℚ) / 100) := by
  refine ⟨by decide, ?_⟩
  have he : txt "1.234,56" = txt "1.234" ++ ',' :: txt "56" := by decide
  rw [he, claim3_theorem.1 (txt "1.234") (txt "56") (some 0) (by decide) (by decide) (by decide)]
  have e1 : digitosValor (List.filter Char.isDigit (txt "1.234")) = 1234 := by decide
  have e2 : digitosValor (List.filter Char.isDigit (txt "56")) = 56 := by decide
  have e3 : (List.filter Char.isDigit (txt "56")).length = 2 := by decide
  rw [e1, e2, e3]
  congr 1
  norm_num
